import Mathlib

/-!
# Verification of the kquiz vocabulary-trainer bot

Shallow embedding of `main.go` (package `main` command router) and the
`telegram` package (`BotHandler` word repository) of handracs2007/kquiz.

Modelling conventions:
* Go strings are modelled as `List Char` (`GoStr`).  All keys produced by the
  program are ASCII decimal chat ids concatenated with user words, so the
  byte-level prefix tests of the Go code coincide with `List Char` prefix
  tests (an ASCII string is a byte prefix of a UTF-8 string iff it is a
  prefix of its character list).
* The two bbolt buckets are modelled as a list of registration keys
  (`telegram` bucket: key = value = decimal chat id) and an association list
  from vocabulary key to translation (`kquiz` bucket).  Store faults
  (`ErrDatabaseError` paths) are not modelled: every transaction succeeds.
* `rand.Intn(n)` is modelled by `seed % n` for an arbitrary `seed : Nat`;
  `rand.Intn` panics when `n = 0`, which is modelled by returning `none`.
* The in-memory `currRandomWord` map of `main.go` is an association list
  from chat id to pending answer.
* `strings.ToLower` is modelled by `Char.toLower` on every character.
-/

/-- A Go string, modelled as its list of characters. -/
abbrev GoStr := List Char

/-- Literal helper: the character list of a Lean string literal. -/
def gs (s : String) : GoStr := s.toList

/-- The error values of the `telegram` package
(`ErrAlreadyRegistered`, `ErrNotRegistered`, `ErrDatabaseError`,
`ErrDuplicateWord`, `ErrWordNotFound`). -/
inductive BotError where
  | alreadyRegistered
  | notRegistered
  | databaseError
  | duplicateWord
  | wordNotFound
deriving DecidableEq, Repr

/-- The message each error formats to (the `errors.New` strings). -/
def errText : BotError → GoStr
  | .alreadyRegistered => gs "already registered"
  | .notRegistered => gs "not yet registered"
  | .databaseError => gs "database error"
  | .duplicateWord => gs "duplicate word"
  | .wordNotFound => gs "word not found"

/-- The persistent store: the `telegram` bucket (registration keys; the
stored value equals the key, so only keys are kept) and the `kquiz` bucket
(vocabulary key → translation). -/
structure DB where
  telegram : List GoStr
  kquiz : List (GoStr × GoStr)
deriving DecidableEq, Repr

/-- `bucket.Get` on an association-list bucket. -/
def kvGet (m : List (GoStr × GoStr)) (k : GoStr) : Option GoStr :=
  (m.find? (fun e => e.1 == k)).map Prod.snd

/-- `bucket.Delete` on an association-list bucket. -/
def kvDel (m : List (GoStr × GoStr)) (k : GoStr) : List (GoStr × GoStr) :=
  m.filter (fun e => !(e.1 == k))

namespace BotHandler

/-- `fmt.Sprintf("%d", chatID)`: the decimal string of the chat id. -/
def chatKey (chatID : Int) : GoStr := (toString chatID).toList

/-- `fmt.Sprintf("%d%s", chatID, word)`: the vocabulary key, the chat id's
decimal string concatenated directly with the word (no delimiter). -/
def wordKey (chatID : Int) (word : GoStr) : GoStr := chatKey chatID ++ word

/-- `BotHandler.IsRegistered`: the registration key is present in the
`telegram` bucket. -/
def IsRegistered (db : DB) (chatID : Int) : Bool :=
  db.telegram.contains (chatKey chatID)

/-- `BotHandler.IsAdded`: the vocabulary key is present in the `kquiz`
bucket. -/
def IsAdded (db : DB) (chatID : Int) (word : GoStr) : Bool :=
  (kvGet db.kquiz (wordKey chatID word)).isSome

/-- `BotHandler.Register`. -/
def Register (db : DB) (chatID : Int) : Except BotError DB :=
  if IsRegistered db chatID then .error .alreadyRegistered
  else .ok { db with telegram := db.telegram ++ [chatKey chatID] }

/-- `BotHandler.Unregister`. -/
def Unregister (db : DB) (chatID : Int) : Except BotError DB :=
  if !(IsRegistered db chatID) then .error .notRegistered
  else .ok { db with telegram := db.telegram.filter (fun k => !(k == chatKey chatID)) }

/-- `BotHandler.Add`. -/
def Add (db : DB) (chatID : Int) (word translation : GoStr) : Except BotError DB :=
  if !(IsRegistered db chatID) then .error .notRegistered
  else if IsAdded db chatID word then .error .duplicateWord
  else .ok { db with kquiz := db.kquiz ++ [(wordKey chatID word, translation)] }

/-- `BotHandler.Search`. -/
def Search (db : DB) (chatID : Int) (word : GoStr) : Except BotError GoStr :=
  if !(IsRegistered db chatID) then .error .notRegistered
  else
    match kvGet db.kquiz (wordKey chatID word) with
    | none => .error .wordNotFound
    | some translation => .ok translation

/-- `BotHandler.Delete`. -/
def Delete (db : DB) (chatID : Int) (word : GoStr) : Except BotError DB :=
  if !(IsRegistered db chatID) then .error .notRegistered
  else if !(IsAdded db chatID word) then .error .wordNotFound
  else .ok { db with kquiz := kvDel db.kquiz (wordKey chatID word) }

/-- `BotHandler.Clear`: the cursor loop deletes every entry whose key string
has the chat id's decimal string as a prefix (`strings.HasPrefix`); the
entries that remain are exactly those without that prefix. -/
def Clear (db : DB) (chatID : Int) : Except BotError DB :=
  if !(IsRegistered db chatID) then .error .notRegistered
  else .ok { db with kquiz := db.kquiz.filter (fun e => !((chatKey chatID).isPrefixOf e.1)) }

/-- Fuel-driven model of Go `strings.ReplaceAll(s, old, "" ∣ new)` for a
non-empty pattern: scan left to right, replacing each non-overlapping
leftmost occurrence of `old` by `new`.  `fuel` bounds the recursion; every
step consumes at least one character, so `fuel = s.length` is always
enough. -/
def goReplaceAllFuel : Nat → List Char → List Char → List Char → List Char
  | 0, s, _, _ => s
  | fuel + 1, s, old, new =>
    match s with
    | [] => []
    | c :: rest =>
      if old ≠ [] ∧ old.isPrefixOf (c :: rest) then
        new ++ goReplaceAllFuel fuel ((c :: rest).drop old.length) old new
      else
        c :: goReplaceAllFuel fuel rest old new

/-- Go `strings.ReplaceAll` (non-empty pattern). -/
def goReplaceAll (s old new : List Char) : List Char :=
  goReplaceAllFuel s.length s old new

/-- `BotHandler.List` (named `ListWords` here because `List` is taken by
Lean's list type): keeps the entries whose key has the chat id string as
prefix, and recovers the word with
`strings.ReplaceAll(key, chatIDString, "")` — note: ReplaceAll, which
removes every occurrence, not only the leading one. -/
def ListWords (db : DB) (chatID : Int) : Except BotError (List (GoStr × GoStr)) :=
  if !(IsRegistered db chatID) then .error .notRegistered
  else
    let wordMap := db.kquiz.filterMap (fun e =>
      if (chatKey chatID).isPrefixOf e.1 then
        some (goReplaceAll e.1 (chatKey chatID) [], e.2)
      else none)
    if wordMap.isEmpty then .error .wordNotFound else .ok wordMap

/-- `BotHandler.Random`.  `rand.Intn (len items)` is modelled by
`seed % items.length`; `rand.Intn` panics when its argument is `0`, which is
modelled by the `none` result (proved unreachable below). -/
def Random (db : DB) (chatID : Int) (seed : Nat) : Option (Except BotError (GoStr × GoStr)) :=
  if !(IsRegistered db chatID) then some (.error .notRegistered)
  else
    match ListWords db chatID with
    | .error e => some (.error e)
    | .ok items =>
      match items[seed % items.length]? with
      | some p => some (.ok p)
      | none => none

end BotHandler

/-! ## The command router of `main.go` -/

/-- Lookup in the in-memory `currRandomWord` map. -/
def quizGet (q : List (Int × GoStr)) (chatID : Int) : Option GoStr :=
  (q.find? (fun e => e.1 == chatID)).map Prod.snd

/-- `currRandomWord[chatID] = answer`: map assignment (overwrites). -/
def quizSet (q : List (Int × GoStr)) (chatID : Int) (answer : GoStr) : List (Int × GoStr) :=
  q.filter (fun e => !(e.1 == chatID)) ++ [(chatID, answer)]

/-- `delete(currRandomWord, chatID)`. -/
def quizDel (q : List (Int × GoStr)) (chatID : Int) : List (Int × GoStr) :=
  q.filter (fun e => !(e.1 == chatID))

/-- The state the update loop of `main.go` works on: the store and the
in-memory `currRandomWord` map. -/
structure BotState where
  db : DB
  quiz : List (Int × GoStr)
deriving DecidableEq, Repr

/-- The split of an inbound message at its first space
(`strings.Index(message, " ")`; `message = message[:i]`,
`argument = message[i+1:]`, argument empty when there is no space). -/
def splitFirstSpace (s : GoStr) : GoStr × GoStr :=
  match s.findIdx? (fun ch => ch == ' ') with
  | none => (s, [])
  | some i => (s.take i, s.drop (i + 1))

/-- Go `strings.ToLower`, modelled character by character. -/
def goToLower (s : GoStr) : GoStr := s.map Char.toLower

/-- The reply of the quiz-answer branch: the (already split) message is
compared to the expected answer case-insensitively. -/
def answerReply (message answer : GoStr) : GoStr :=
  if goToLower message == goToLower answer then gs "Your answer is correct"
  else gs "Your answer is incorrect. Correct answer is " ++ answer ++ gs "."

/-- `main.registerUser`: perform Register and format the reply. -/
def registerUser (st : BotState) (chatID : Int) : BotState × List GoStr :=
  match BotHandler.Register st.db chatID with
  | .error e => (st, [gs "Registration failed. " ++ errText e ++ gs "."])
  | .ok db' => ({ st with db := db' }, [gs "Thanks for your registration."])

/-- `main.unregisterUser`. -/
def unregisterUser (st : BotState) (chatID : Int) : BotState × List GoStr :=
  match BotHandler.Unregister st.db chatID with
  | .error e => (st, [gs "Unregistration failed. " ++ errText e ++ gs "."])
  | .ok db' =>
    ({ st with db := db' },
     [gs "You have been successfully unregistered. You will not receive any future updates."])

/-- `main.addWord`. -/
def addWord (st : BotState) (chatID : Int) (word translation : GoStr) : BotState × List GoStr :=
  match BotHandler.Add st.db chatID word translation with
  | .error e => (st, [gs "Add word failed. " ++ errText e ++ gs "."])
  | .ok db' =>
    ({ st with db := db' },
     [gs "New word successfully added. " ++ word ++ gs " -> " ++ translation ++ gs "."])

/-- `main.searchWord`. -/
def searchWord (st : BotState) (chatID : Int) (word : GoStr) : BotState × List GoStr :=
  match BotHandler.Search st.db chatID word with
  | .error e => (st, [gs "Search word failed. " ++ errText e ++ gs "."])
  | .ok translation => (st, [word ++ gs " -> " ++ translation ++ gs "."])

/-- `main.randomWord`: perform Random, send one reply, and return the
chosen pair (`nil`, i.e. `none`, on failure).  The outer `none` models the
`rand.Intn(0)` panic inside Random. -/
def randomWord (st : BotState) (chatID : Int) (seed : Nat) :
    Option (Option (GoStr × GoStr) × List GoStr) :=
  match BotHandler.Random st.db chatID seed with
  | none => none
  | some (.error e) => some (none, [gs "Get random word failed. " ++ errText e ++ gs "."])
  | some (.ok p) => some (some p, [gs "What is translation for: " ++ p.1])

/-- `main.deleteWord`. -/
def deleteWord (st : BotState) (chatID : Int) (word : GoStr) : BotState × List GoStr :=
  match BotHandler.Delete st.db chatID word with
  | .error e => (st, [gs "Delete word failed. " ++ errText e ++ gs "."])
  | .ok db' => ({ st with db := db' }, [word ++ gs " deleted."])

/-- `main.clearWords`. -/
def clearWords (st : BotState) (chatID : Int) : BotState × List GoStr :=
  match BotHandler.Clear st.db chatID with
  | .error e => (st, [gs "Clear words failed. " ++ errText e ++ gs "."])
  | .ok db' => ({ st with db := db' }, [gs "Words cleared."])

/-- `main.listWords`: one failure reply, or one reply per (word,
translation) pair in order. -/
def listWords (st : BotState) (chatID : Int) : BotState × List GoStr :=
  match BotHandler.ListWords st.db chatID with
  | .error e => (st, [gs "List words failed. " ++ errText e ++ gs "."])
  | .ok items => (st, items.map (fun p => p.1 ++ gs " -> " ++ p.2))

/-- The command tokens the `switch` of `main.go` recognises.  Grouped to the
right so that `Bool.or_eq_false_iff` flattens it into a right-nested
conjunction. -/
def isCommand (m : GoStr) : Bool :=
  m == gs "/start" || (m == gs "/register" || (m == gs "/stop" || (m == gs "/unregister" ||
  (m == gs "/add" || (m == gs "/search" || (m == gs "/random" || (m == gs "/delete" ||
  (m == gs "/list" || m == gs "/clear"))))))))

/-- The `switch message` dispatch of the update loop, acting on the already
split `message`/`argument`.  Returns the new state and the list of replies
sent (`none` models the `rand.Intn(0)` panic).  In the `/add` branch the
Go test `len(argument) == 0 || strings.Index(argument, " ") == -1` is noted
to be equivalent to `findIdx?` being `none` (an empty list has no index),
and `strings.SplitN(argument, " ", 2)` with a space present coincides with
`splitFirstSpace`. -/
def handleCommand (st : BotState) (chatID : Int) (message argument : GoStr) (seed : Nat) :
    Option (BotState × List GoStr) :=
  if message == gs "/start" || message == gs "/register" then
    some (registerUser st chatID)
  else if message == gs "/stop" || message == gs "/unregister" then
    some (unregisterUser st chatID)
  else if message == gs "/add" then
    if argument.isEmpty || (argument.findIdx? (fun ch => ch == ' ')).isNone then
      some (st, [gs "Please provide the Korean word and its translation."])
    else
      some (addWord st chatID (splitFirstSpace argument).1 (splitFirstSpace argument).2)
  else if message == gs "/search" then
    if argument.isEmpty then some (st, [gs "Please provide the Korean word."])
    else some (searchWord st chatID argument)
  else if message == gs "/random" then
    match randomWord st chatID seed with
    | none => none
    | some (words, replies) =>
      match words with
      | none => some (st, replies)
      | some p => some ({ st with quiz := quizSet st.quiz chatID p.2 }, replies)
  else if message == gs "/delete" then
    if argument.isEmpty then some (st, [gs "Please provide the Korean word."])
    else some (deleteWord st chatID argument)
  else if message == gs "/list" then
    some (listWords st chatID)
  else if message == gs "/clear" then
    some (clearWords st chatID)
  else
    match quizGet st.quiz chatID with
    | none => some (st, [])
    | some answer =>
      some ({ st with quiz := quizDel st.quiz chatID }, [answerReply message answer])

/-- Processing of one inbound message: split at the first space, then
dispatch. -/
def processMessage (st : BotState) (chatID : Int) (text : GoStr) (seed : Nat) :
    Option (BotState × List GoStr) :=
  handleCommand st chatID (splitFirstSpace text).1 (splitFirstSpace text).2 seed

deriving instance DecidableEq for Except

/-! ## Helper lemmas -/

theorem isPrefixOf_append (l₁ l₂ : GoStr) : l₁.isPrefixOf (l₁ ++ l₂) = true := by
  rw [ List.isPrefixOf_iff_prefix]
  exact List.prefix_append l₁ l₂

/-- Lookup of a key satisfying `p` in a bucket that kept only the entries
failing `p` finds nothing. -/
theorem kvGet_filter_of_pred (m : List (GoStr × GoStr)) (p : GoStr → Bool) (k : GoStr)
    (hk : p k = true) :
    kvGet (m.filter (fun e => !(p e.1))) k = none := by
  have hnone : (m.filter (fun e => !(p e.1))).find? (fun e => e.1 == k) = none := by
    apply List.find?_eq_none.mpr
    intro e he hbeq
    have hf := (List.mem_filter.mp he).2
    rw [eq_of_beq hbeq, hk] at hf
    simp at hf
  simp [kvGet, hnone]

theorem kvGet_append_self (m : List (GoStr × GoStr)) (k v : GoStr) :
    (kvGet (m ++ [(k, v)]) k).isSome = true := by
  simp only [kvGet, List.find?_append]
  cases hf : m.find? (fun e => e.1 == k) with
  | none => simp [List.find?]
  | some e => simp

theorem contains_filter_ne (l : List GoStr) (a : GoStr) :
    (l.filter (fun k => !(k == a))).contains a = false := by
  rw [Bool.eq_false_iff]
  intro h
  have hmem : a ∈ l.filter (fun k => !(k == a)) := List.elem_iff.mp h
  have := (List.mem_filter.mp hmem).2
  simp at this

theorem quizGet_quizDel (q : List (Int × GoStr)) (c : Int) :
    quizGet (quizDel q c) c = none := by
  have hnone : (q.filter (fun e => !(e.1 == c))).find? (fun e => e.1 == c) = none := by
    apply List.find?_eq_none.mpr
    intro e he hbeq
    have hf := (List.mem_filter.mp he).2
    rw [hbeq] at hf
    simp at hf
  simp [quizGet, quizDel, hnone]

/-- Every message whose first token is not a recognised command lands in the
`default` (quiz-answer) branch of the switch. -/
theorem handleCommand_eq_default (st : BotState) (c : Int) (m arg : GoStr) (seed : Nat)
    (h : isCommand m = false) :
    handleCommand st c m arg seed =
      match quizGet st.quiz c with
      | none => some (st, [])
      | some answer =>
        some ({ st with quiz := quizDel st.quiz c }, [answerReply m answer]) := by
  simp only [isCommand, Bool.or_eq_false_iff] at h
  obtain ⟨h1, h2, h3, h4, h5, h6, h7, h8, h9, h10⟩ := h
  simp [handleCommand, h1, h2, h3, h4, h5, h6, h7, h8, h9, h10]

/-- A successful `List` implies the chat is registered and the result is
non-empty. -/
theorem ListWords_ok (db : DB) (c : Int) (items : List (GoStr × GoStr))
    (h : BotHandler.ListWords db c = .ok items) :
    BotHandler.IsRegistered db c = true ∧ items ≠ [] := by
  unfold BotHandler.ListWords at h
  cases hr : BotHandler.IsRegistered db c with
  | false => rw [hr] at h; simp at h
  | true =>
    rw [hr] at h
    simp only [Bool.not_true, Bool.false_eq_true, if_false] at h
    refine ⟨rfl, ?_⟩
    by_cases he : (db.kquiz.filterMap (fun e =>
        if (BotHandler.chatKey c).isPrefixOf e.1 then
          some (BotHandler.goReplaceAll e.1 (BotHandler.chatKey c) [], e.2)
        else none)).isEmpty
    · rw [if_pos he] at h; simp at h
    · rw [if_neg he] at h
      cases h
      exact fun hnil => he (by rw [hnil]; rfl)

/-! ## C1 — Clear and cross-chat entries -/

/-- The store after chats `1` and `12` are registered and chat `12` has
added the word `w` with translation `t` (the vocabulary key is `12w`). -/
def dbCross : DB := { telegram := [gs "1", gs "12"], kquiz := [(gs "12w", gs "t")] }

/-- C1 counterexample: with chats `1` and `12` both registered and the entry
`12w → t` owned by chat `12`, `Clear 1` deletes chat `12`'s entry, because
the key `12w` has chat `1`'s decimal string as a prefix.  This refutes the
claim that `Clear C` removes no vocabulary entry owned by a distinct chat
`D`. -/
theorem clear_removes_other_chats_entry :
    BotHandler.IsRegistered dbCross 1 = true
    ∧ BotHandler.IsRegistered dbCross 12 = true
    ∧ BotHandler.IsAdded dbCross 12 (gs "w") = true
    ∧ BotHandler.Clear dbCross 1 = .ok { telegram := [gs "1", gs "12"], kquiz := [] }
    ∧ BotHandler.IsAdded { telegram := [gs "1", gs "12"], kquiz := [] } 12 (gs "w") = false := by
  decide

/-- C1 amended: a successful `Clear db C` removes every vocabulary entry
owned by `C`, keeps exactly the entries whose key does not start with `C`'s
decimal string, and removes nothing else — so another chat `D`'s entries
survive precisely when their keys do not start with `C`'s id string. -/
theorem Clear_removes_owned_keeps_unprefixed (db db' : DB) (c : Int)
    (h : BotHandler.Clear db c = .ok db') :
    (∀ w, BotHandler.IsAdded db' c w = false)
    ∧ (∀ k v, (k, v) ∈ db.kquiz → (BotHandler.chatKey c).isPrefixOf k = false →
        (k, v) ∈ db'.kquiz)
    ∧ (∀ k v, (k, v) ∈ db'.kquiz →
        (k, v) ∈ db.kquiz ∧ (BotHandler.chatKey c).isPrefixOf k = false) := by
  unfold BotHandler.Clear at h
  cases hr : BotHandler.IsRegistered db c with
  | false => rw [hr] at h; simp at h
  | true =>
    rw [hr] at h
    simp only [Bool.not_true, Bool.false_eq_true, if_false, Except.ok.injEq] at h
    subst h
    refine ⟨?_, ?_, ?_⟩
    · intro w
      simp only [BotHandler.IsAdded, BotHandler.wordKey, kvGet]
      have hnone : (db.kquiz.filter (fun e => !((BotHandler.chatKey c).isPrefixOf e.1))).find?
          (fun e => e.1 == BotHandler.chatKey c ++ w) = none := by
        apply List.find?_eq_none.mpr
        intro e he hbeq
        have hf := (List.mem_filter.mp he).2
        rw [eq_of_beq hbeq, isPrefixOf_append] at hf
        simp at hf
      rw [hnone]
      rfl
    · intro k v hmem hnp
      exact List.mem_filter.mpr ⟨hmem, by simp [hnp]⟩
    · intro k v hmem
      have hsp := List.mem_filter.mp hmem
      exact ⟨hsp.1, by simpa using hsp.2⟩

/-- A store where chat `1` is registered and an entry whose key `2w` does
not start with `1` is present; `Clear 1` leaves it unchanged. -/
def dbSide : DB := { telegram := [gs "1", gs "12"], kquiz := [(gs "2w", gs "u")] }

/-- Witness for the C1 amended theorem: at `dbSide`, `Clear 1` succeeds,
chat `1` owns nothing afterwards, and the unprefixed entry `2w → u`
survives. -/
theorem Clear_removes_owned_keeps_unprefixed_witness :
    BotHandler.IsAdded dbSide 1 (gs "a") = false
    ∧ (gs "2w", gs "u") ∈ dbSide.kquiz := by
  have h := Clear_removes_owned_keeps_unprefixed dbSide dbSide 1 (by decide)
  exact ⟨h.1 (gs "a"), h.2.1 (gs "2w") (gs "u") (by decide) (by decide)⟩

/-! ## C2 — List round-trip and the ReplaceAll slip -/

/-- The store after chat `1` registers. -/
def dbReg1 : DB := { telegram := [gs "1"], kquiz := [] }

/-- The store after chat `1` additionally adds word `a1` → `x` (key `1a1`). -/
def dbBug : DB := { telegram := [gs "1"], kquiz := [(gs "1a1", gs "x")] }

/-- C2 failing input, evaluated on the code: chat `1` adds the single word
`a1` with translation `x`; `Search` finds it under its exact key, but
`List` reports the pair `("a", "x")` — `strings.ReplaceAll` removed *every*
occurrence of the chat id string `1` from the key `1a1`, not only the
prefix, so the added word does not round-trip. -/
theorem listWords_mangles_word_containing_id :
    BotHandler.Add dbReg1 1 (gs "a1") (gs "x") = .ok dbBug
    ∧ BotHandler.Search dbBug 1 (gs "a1") = .ok (gs "x")
    ∧ BotHandler.ListWords dbBug 1 = .ok [(gs "a", gs "x")]
    ∧ BotHandler.ListWords dbBug 1 ≠ .ok [(gs "a1", gs "x")] := by
  decide

/-! ## C3 — quiz answers are judged on the first token only -/

/-- A state whose pending answer for chat `7` contains a space. -/
def stMulti : BotState :=
  { db := { telegram := [], kquiz := [] }, quiz := [(7, gs "big apple")] }

/-- A state whose pending answer for chat `7` is the single word `apple`. -/
def stApple : BotState :=
  { db := { telegram := [], kquiz := [] }, quiz := [(7, gs "apple")] }

/-- C3 counterexample: the update loop splits every inbound message at its
first space *before* the quiz-answer comparison, so only the first token is
compared.  Sending the exact pending translation `big apple` is judged
incorrect; conversely, with pending answer `apple`, the different message
`apple pie` is judged correct. -/
theorem exact_translation_with_space_judged_incorrect :
    quizGet stMulti.quiz 7 = some (gs "big apple")
    ∧ processMessage stMulti 7 (gs "big apple") 0
      = some ({ db := { telegram := [], kquiz := [] }, quiz := [] },
          [gs "Your answer is incorrect. Correct answer is big apple."])
    ∧ processMessage stApple 7 (gs "apple pie") 0
      = some ({ db := { telegram := [], kquiz := [] }, quiz := [] },
          [gs "Your answer is correct"]) := by
  decide

/-- C3 amended: for a chat with a pending answer, a non-command message is
answered with "Your answer is correct" exactly when the part of the message
before its first space equals the expected answer case-insensitively;
otherwise the incorrect-answer reply disclosing the expected answer is
sent.  (The exact translation therefore wins only when it contains no
space.) -/
theorem quiz_answer_first_token_case_insensitive (st : BotState) (c : Int) (text : GoStr)
    (seed : Nat) (ans : GoStr)
    (hq : quizGet st.quiz c = some ans)
    (hnc : isCommand (splitFirstSpace text).1 = false) :
    processMessage st c text seed =
      some ({ st with quiz := quizDel st.quiz c },
        [ if goToLower (splitFirstSpace text).1 == goToLower ans then
            gs "Your answer is correct"
          else
            gs "Your answer is incorrect. Correct answer is " ++ ans ++ gs "." ]) := by
  unfold processMessage
  rw [handleCommand_eq_default _ _ _ _ _ hnc, hq]
  rfl

/-- Witness for the C3 amended theorem: pending answer `apple` for chat `7`,
message `apple` is judged correct. -/
theorem quiz_answer_first_token_case_insensitive_witness :
    processMessage stApple 7 (gs "apple") 0
      = some ({ db := { telegram := [], kquiz := [] }, quiz := [] },
          [gs "Your answer is correct"]) :=
  (quiz_answer_first_token_case_insensitive stApple 7 (gs "apple") 0 (gs "apple")
    (by decide) (by decide)).trans (by decide)

/-! ## C4 — the pending answer is consumed, win or lose -/

/-- C4: processing a non-command message while an answer is pending always
removes the chat's QuizState entry (whatever the message was), and a
further non-command message from the same chat changes nothing and sends no
reply (the unknown command is only logged). -/
theorem quiz_state_consumed_then_unknown_command (st : BotState) (c : Int)
    (text text2 : GoStr) (seed seed2 : Nat) (ans : GoStr)
    (hq : quizGet st.quiz c = some ans)
    (h1 : isCommand (splitFirstSpace text).1 = false)
    (h2 : isCommand (splitFirstSpace text2).1 = false) :
    (processMessage st c text seed).map Prod.fst
      = some { st with quiz := quizDel st.quiz c }
    ∧ quizGet (quizDel st.quiz c) c = none
    ∧ processMessage { st with quiz := quizDel st.quiz c } c text2 seed2
      = some ({ st with quiz := quizDel st.quiz c }, []) := by
  refine ⟨?_, quizGet_quizDel st.quiz c, ?_⟩
  · unfold processMessage
    rw [handleCommand_eq_default _ _ _ _ _ h1, hq]
    rfl
  · unfold processMessage
    rw [handleCommand_eq_default _ _ _ _ _ h2]
    have hnone : quizGet ({ st with quiz := quizDel st.quiz c } : BotState).quiz c = none :=
      quizGet_quizDel st.quiz c
    rw [hnone]

/-- Witness for C4: pending answer `apple` for chat `7`; after the answer
`apple` the entry is gone and the follow-up `huh` draws no reply. -/
theorem quiz_state_consumed_then_unknown_command_witness :
    (processMessage stApple 7 (gs "apple") 0).map Prod.fst
      = some { db := { telegram := [], kquiz := [] }, quiz := [] }
    ∧ processMessage { db := { telegram := [], kquiz := [] }, quiz := [] } 7 (gs "huh") 0
      = some ({ db := { telegram := [], kquiz := [] }, quiz := [] }, []) := by
  have h := quiz_state_consumed_then_unknown_command stApple 7 (gs "apple") (gs "huh") 0 0
    (gs "apple") (by decide) (by decide) (by decide)
  exact ⟨h.1.trans (by decide), h.2.2.trans (by decide)⟩

/-! ## C10 — the quiz-answer path never checks registration -/

/-- C10: with a pending answer for chat `c`, even after `Unregister`
succeeds for that chat, the next non-command message is still judged
against the pending answer and the entry is consumed — the default branch
never consults the registration partition. -/
theorem quiz_answer_skips_registration_check (st : BotState) (c : Int) (db' : DB)
    (text ans : GoStr) (seed : Nat)
    (hq : quizGet st.quiz c = some ans)
    (hun : BotHandler.Unregister st.db c = .ok db')
    (hnc : isCommand (splitFirstSpace text).1 = false) :
    BotHandler.IsRegistered db' c = false
    ∧ processMessage { db := db', quiz := st.quiz } c text seed
      = some ({ db := db', quiz := quizDel st.quiz c },
          [answerReply (splitFirstSpace text).1 ans]) := by
  constructor
  · unfold BotHandler.Unregister at hun
    cases hr : BotHandler.IsRegistered st.db c with
    | false => rw [hr] at hun; simp at hun
    | true =>
      rw [hr] at hun
      simp only [Bool.not_true, Bool.false_eq_true, if_false, Except.ok.injEq] at hun
      subst hun
      simp only [BotHandler.IsRegistered]
      exact contains_filter_ne st.db.telegram (BotHandler.chatKey c)
  · unfold processMessage
    rw [handleCommand_eq_default _ _ _ _ _ hnc]
    have hq' : quizGet ({ db := db', quiz := st.quiz } : BotState).quiz c = some ans := hq
    rw [hq']

/-! ## C5 — Random is in bounds and returns a member of List's result -/

/-- C5: `Random` fails with `wordNotFound` only when `List` itself did, and
whenever `List` succeeds its result is non-empty, the chosen index
`seed % length` is in bounds, and `Random` returns a pair belonging to
`List`'s result (in particular the `rand.Intn` panic branch is never
reached). -/
theorem Random_in_bounds_member_of_list (db : DB) (c : Int) (seed : Nat) :
    (BotHandler.Random db c seed = some (.error .wordNotFound) →
      BotHandler.ListWords db c = .error .wordNotFound)
    ∧ ∀ items, BotHandler.ListWords db c = .ok items →
        items ≠ [] ∧ seed % items.length < items.length ∧
        ∃ p, BotHandler.Random db c seed = some (.ok p) ∧ p ∈ items := by
  constructor
  · intro h
    unfold BotHandler.Random at h
    cases hr : BotHandler.IsRegistered db c with
    | false => rw [hr] at h; simp at h
    | true =>
      rw [hr] at h
      simp only [Bool.not_true, Bool.false_eq_true, if_false] at h
      cases hl : BotHandler.ListWords db c with
      | error e =>
        rw [hl] at h
        simp only [Option.some.injEq, Except.error.injEq] at h
        rw [h]
      | ok items =>
        rw [hl] at h
        have h2 : (match items[seed % items.length]? with
            | some p => some (Except.ok p)
            | none => none)
            = (some (Except.error BotError.wordNotFound) :
                Option (Except BotError (GoStr × GoStr))) := h
        cases hg : items[seed % items.length]? with
        | none => rw [hg] at h2; simp at h2
        | some p => rw [hg] at h2; simp at h2
  · intro items hl
    obtain ⟨hr, hne⟩ := ListWords_ok db c items hl
    have hpos : 0 < items.length := List.length_pos.mpr hne
    have hlt : seed % items.length < items.length := Nat.mod_lt _ hpos
    refine ⟨hne, hlt, items[seed % items.length], ?_, List.getElem_mem hlt⟩
    unfold BotHandler.Random
    rw [hr]
    simp only [Bool.not_true, Bool.false_eq_true, if_false]
    rw [hl]
    simp [List.getElem?_eq_getElem hlt]

/-- The store where chat `9` is registered and owns the single word `w`. -/
def dbOne : DB := { telegram := [gs "9"], kquiz := [(gs "9w", gs "t")] }

/-- Witness for C5 at `dbOne`. -/
theorem Random_in_bounds_member_of_list_witness :
    BotHandler.ListWords dbOne 9 = .ok [(gs "w", gs "t")]
    ∧ BotHandler.Random dbOne 9 0 = some (.ok (gs "w", gs "t")) := by
  obtain ⟨-, -, p, hp, hmem⟩ :=
    (Random_in_bounds_member_of_list dbOne 9 0).2 [(gs "w", gs "t")] (by decide)
  exact ⟨by decide, (List.mem_singleton.mp hmem) ▸ hp⟩

/-! ## C6 — Add: registration check precedes duplicate check -/

/-- C6: `Add` on an unregistered chat fails with `notRegistered` (whatever
the vocabulary bucket holds), and a second `Add` of the same word by the
same chat after a successful one fails with `duplicateWord`. -/
theorem Add_not_registered_then_duplicate (db db' : DB) (c : Int) (w t t2 : GoStr) :
    (BotHandler.IsRegistered db c = false →
      BotHandler.Add db c w t = .error .notRegistered)
    ∧ (BotHandler.Add db c w t = .ok db' →
      BotHandler.Add db' c w t2 = .error .duplicateWord) := by
  constructor
  · intro hr
    unfold BotHandler.Add
    rw [hr]
    rfl
  · intro h
    unfold BotHandler.Add at h
    cases hr : BotHandler.IsRegistered db c with
    | false => rw [hr] at h; simp at h
    | true =>
      rw [hr] at h
      simp only [Bool.not_true, Bool.false_eq_true, if_false] at h
      cases ha : BotHandler.IsAdded db c w with
      | true => rw [ha] at h; simp at h
      | false =>
        rw [ha] at h
        simp only [Bool.false_eq_true, if_false, Except.ok.injEq] at h
        subst h
        have hreg' : BotHandler.IsRegistered
            { db with kquiz := db.kquiz ++ [(BotHandler.wordKey c w, t)] } c = true := hr
        have hadd : BotHandler.IsAdded
            { db with kquiz := db.kquiz ++ [(BotHandler.wordKey c w, t)] } c w = true :=
          kvGet_append_self db.kquiz (BotHandler.wordKey c w) t
        simp [BotHandler.Add, hreg', hadd]

/-- An empty store: no chat registered. -/
def dbEmpty : DB := { telegram := [], kquiz := [] }

/-- The store where chat `5` is registered with no words. -/
def dbReg5 : DB := { telegram := [gs "5"], kquiz := [] }

/-- `dbReg5` after chat `5` adds `w → t`. -/
def dbReg5' : DB := { telegram := [gs "5"], kquiz := [(gs "5w", gs "t")] }

/-- Witness for C6. -/
theorem Add_not_registered_then_duplicate_witness :
    BotHandler.Add dbEmpty 5 (gs "w") (gs "t") = .error .notRegistered
    ∧ BotHandler.Add dbReg5' 5 (gs "w") (gs "u") = .error .duplicateWord :=
  ⟨(Add_not_registered_then_duplicate dbEmpty dbEmpty 5 (gs "w") (gs "t") (gs "t")).1
      (by decide),
   (Add_not_registered_then_duplicate dbReg5 dbReg5' 5 (gs "w") (gs "t") (gs "u")).2
      (by decide)⟩

/-! ## C7 — the /random command and QuizState -/

/-- The `/random` case of the dispatch, by pure unfolding. -/
theorem processMessage_random_eq (st : BotState) (c : Int) (seed : Nat) :
    processMessage st c (gs "/random") seed =
      match randomWord st c seed with
      | none => none
      | some (words, replies) =>
        match words with
        | none => some (st, replies)
        | some p => some ({ st with quiz := quizSet st.quiz c p.2 }, replies) := rfl

/-- C7: when `Random` fails, the `/random` command replies with the failure
reason and the state — in particular the QuizState map — is returned
exactly as it was; only on success is the returned translation recorded
into QuizState. -/
theorem random_command_quizstate_frame (st : BotState) (c : Int) (seed : Nat) :
    (∀ e, BotHandler.Random st.db c seed = some (.error e) →
      processMessage st c (gs "/random") seed
        = some (st, [gs "Get random word failed. " ++ errText e ++ gs "."]))
    ∧ (∀ w t, BotHandler.Random st.db c seed = some (.ok (w, t)) →
      processMessage st c (gs "/random") seed
        = some ({ st with quiz := quizSet st.quiz c t },
            [gs "What is translation for: " ++ w])) := by
  constructor
  · intro e he
    rw [processMessage_random_eq]
    unfold randomWord
    rw [he]
  · intro w t hwt
    rw [processMessage_random_eq]
    unfold randomWord
    rw [hwt]

/-- An empty router state. -/
def stEmpty : BotState := { db := dbEmpty, quiz := [] }

/-- Witness for C7: an unregistered chat gets the failure reply and an
untouched state. -/
theorem random_command_quizstate_frame_witness :
    processMessage stEmpty 5 (gs "/random") 0
      = some (stEmpty, [gs "Get random word failed. not yet registered."]) := by
  have h := (random_command_quizstate_frame stEmpty 5 0).1 .notRegistered (by decide)
  exact h.trans (by decide)

/-! ## C8 — parsing of the /add command -/

/-- The `/add` case of the dispatch, by pure unfolding. -/
theorem handleCommand_add_eq (st : BotState) (c : Int) (arg : GoStr) (seed : Nat) :
    handleCommand st c (gs "/add") arg seed =
      if arg.isEmpty || (arg.findIdx? (fun ch => ch == ' ')).isNone then
        some (st, [gs "Please provide the Korean word and its translation."])
      else
        some (addWord st c (splitFirstSpace arg).1 (splitFirstSpace arg).2) := rfl

/-- C8: for a message whose first token is `/add`, an argument that is
empty or has no space draws the usage prompt and leaves the state alone
(no `Add` happens); otherwise `Add` is invoked with the argument's text
before its first space as the word and everything after that space as the
translation. -/
theorem add_command_parsing (st : BotState) (c : Int) (text arg : GoStr) (seed : Nat)
    (hsplit : splitFirstSpace text = (gs "/add", arg)) :
    (arg.findIdx? (fun ch => ch == ' ') = none →
      processMessage st c text seed
        = some (st, [gs "Please provide the Korean word and its translation."]))
    ∧ (∀ i, arg.findIdx? (fun ch => ch == ' ') = some i →
      processMessage st c text seed
        = some (addWord st c (arg.take i) (arg.drop (i + 1)))) := by
  have hpm : processMessage st c text seed = handleCommand st c (gs "/add") arg seed := by
    unfold processMessage
    rw [hsplit]
  constructor
  · intro hn
    rw [hpm, handleCommand_add_eq, hn]
    simp
  · intro i hi
    have hne : arg.isEmpty = false := by
      cases arg with
      | nil => simp at hi
      | cons a l => rfl
    rw [hpm, handleCommand_add_eq, hi, hne]
    simp [splitFirstSpace, hi]

/-- Witness for C8: `/add kor` draws the usage prompt; `/add kor eng`
reaches `Add` with word `kor` and translation `eng` (which fails here with
`notRegistered` since the chat never registered). -/
theorem add_command_parsing_witness :
    processMessage stEmpty 5 (gs "/add kor") 0
      = some (stEmpty, [gs "Please provide the Korean word and its translation."])
    ∧ processMessage stEmpty 5 (gs "/add kor eng") 0
      = some (stEmpty, [gs "Add word failed. not yet registered."]) := by
  have h1 := (add_command_parsing stEmpty 5 (gs "/add kor") (gs "kor") 0 (by decide)).1
    (by decide)
  have h2 := (add_command_parsing stEmpty 5 (gs "/add kor eng") (gs "kor eng") 0
    (by decide)).2 3 (by decide)
  exact ⟨h1, h2.trans (by decide)⟩

/-! ## C9 — Unregister touches only the registration partition -/

/-- C9: a successful `Unregister` leaves the vocabulary bucket identical —
every chat's entries, not only the unregistering chat's — and after
re-registering, the vocabulary bucket still equals the original, so a
chat's stored words survive an unregister/re-register cycle. -/
theorem Unregister_preserves_vocabulary (db db' : DB) (c : Int)
    (h : BotHandler.Unregister db c = .ok db') :
    db'.kquiz = db.kquiz
    ∧ (∀ d w, BotHandler.IsAdded db' d w = BotHandler.IsAdded db d w)
    ∧ (∀ db'', BotHandler.Register db' c = .ok db'' → db''.kquiz = db.kquiz) := by
  unfold BotHandler.Unregister at h
  cases hr : BotHandler.IsRegistered db c with
  | false => rw [hr] at h; simp at h
  | true =>
    rw [hr] at h
    simp only [Bool.not_true, Bool.false_eq_true, if_false, Except.ok.injEq] at h
    subst h
    refine ⟨rfl, fun d w => rfl, ?_⟩
    intro db'' h2
    unfold BotHandler.Register at h2
    cases hr2 : BotHandler.IsRegistered
        { db with telegram := db.telegram.filter (fun k => !(k == BotHandler.chatKey c)) } c with
    | true => rw [hr2] at h2; simp at h2
    | false =>
      rw [hr2] at h2
      simp only [Bool.false_eq_true, if_false, Except.ok.injEq] at h2
      subst h2
      rfl

/-- The store where chat `5` is registered and owns `w → t`. -/
def dbRegWords : DB := { telegram := [gs "5"], kquiz := [(gs "5w", gs "t")] }

/-- `dbRegWords` after chat `5` unregisters: words still present. -/
def dbUnreg : DB := { telegram := [], kquiz := [(gs "5w", gs "t")] }

/-- Witness for C9. -/
theorem Unregister_preserves_vocabulary_witness :
    dbUnreg.kquiz = dbRegWords.kquiz
    ∧ BotHandler.IsAdded dbUnreg 5 (gs "w") = BotHandler.IsAdded dbRegWords 5 (gs "w") := by
  have h := Unregister_preserves_vocabulary dbRegWords dbUnreg 5 (by decide)
  exact ⟨h.1, h.2.1 5 (gs "w")⟩

/-- The state for the C10 witness: chat `7` registered with pending answer
`apple`. -/
def stUn : BotState :=
  { db := { telegram := [gs "7"], kquiz := [] }, quiz := [(7, gs "apple")] }

/-- Witness for C10: chat `7` unregisters, then answers `apple` and is
still judged (correctly) while the entry is consumed. -/
theorem quiz_answer_skips_registration_check_witness :
    BotHandler.IsRegistered { telegram := [], kquiz := [] } 7 = false
    ∧ processMessage { db := { telegram := [], kquiz := [] }, quiz := [(7, gs "apple")] } 7
        (gs "apple") 0
      = some ({ db := { telegram := [], kquiz := [] }, quiz := [] },
          [gs "Your answer is correct"]) := by
  have h := quiz_answer_skips_registration_check stUn 7 { telegram := [], kquiz := [] }
    (gs "apple") (gs "apple") 0 (by decide) (by decide) (by decide)
  exact ⟨h.1, h.2.trans (by decide)⟩
